import Mathlib

/-!
# Verification of the gort discovery-and-scan pipeline

Shallow embedding of the gort port scanner (package `pScan` in
`netUtil/pScan/fcScan.go` and `targets.go`, plus `netUtil/ports.go`).

Modelling conventions:
* Go strings are Lean `String`; `strings.HasSuffix` is embedded as a suffix
  check on the underlying character list (`goHasSuffix`).
* `net.DialTimeout` outcomes are modelled by `ConnectOutcome`: either success
  or an error carrying the flag of whether it is a `*net.OpError` (the type
  assertion `err.(*net.OpError)` performed by `scanPort`) together with its
  `Error()` text.  The Go `net` package wraps every dial failure in a
  `*net.OpError`, so the error cases produced by a real dial all carry
  `isOpError = true`; the model nevertheless keeps the flag so that the type
  assertion in the source is represented faithfully.
* Side effects of one probe (semaphore traffic, sleeping, re-spawning, channel
  sends) are recorded as an explicit event trace (`ScanEv`).
* External collaborators (DNS, ICMP, ARP, vendor database, ulimit) are
  oracle functions supplied as parameters, mirroring §6 of the design.
-/

namespace Gort

/-! ## Data model (`netUtil/ports.go`, `targets.go`) -/

/-- `netUtil.Port`: port number and transport protocol label. -/
structure Port where
  portNo : Nat
  protocol : String
  deriving DecidableEq, Repr

/-- `TargetStatus` (`targets.go`): `Online | OfflineFiltered | Unknown`. -/
inductive TargetStatus where
  | Online
  | OfflineFiltered
  | Unknown
  deriving DecidableEq, Repr

/-- `NetworkLocation` (`targets.go`): `Local | Global | UnknownLoc`.
`unspecified` is the Go zero value of the underlying int, which is distinct
from all three named constants. -/
inductive NetworkLocation where
  | unspecified
  | Local
  | Global
  | UnknownLoc
  deriving DecidableEq, Repr

/-- `pScan.PortResults`: the three classification buckets of port probes. -/
structure PortResults where
  Open : List Port
  Closed : List Port
  Filtered : List Port
  deriving DecidableEq, Repr

/-- `NewPortResults()`: all three buckets empty. -/
def emptyPortResults : PortResults := { Open := [], Closed := [], Filtered := [] }

/-! ## Go string-suffix matching (`strings.HasSuffix`) -/

/-- `strings.HasSuffix(s, suffix)`: whether `suffix` is a suffix of `s`,
embedded on the character lists of the two strings. -/
def goHasSuffix (s suffixStr : String) : Bool :=
  suffixStr.data.isSuffixOf s.data

/-- The Windows refusal message matched by `scanPort`. -/
def winRefusedMsg : String :=
  "No connection could be made because the target machine actively refused it."

/-- The Unix refusal suffix matched by `scanPort`. -/
def connRefusedMsg : String := "connect: connection refused"

/-- The timeout suffix matched by `scanPort`. -/
def ioTimeoutMsg : String := "i/o timeout"

/-- The descriptor-exhaustion suffix matched by `scanPort`. -/
def tooManyFilesMsg : String := "too many open files"

/-- The refusal test of `scanPort` (Windows message or Unix suffix). -/
def refusedErr (msg : String) : Bool :=
  goHasSuffix msg winRefusedMsg || goHasSuffix msg connRefusedMsg

/-- The timeout test of `scanPort`. -/
def ioTimeoutErr (msg : String) : Bool := goHasSuffix msg ioTimeoutMsg

/-- The descriptor-exhaustion test of `scanPort`. -/
def tooManyErr (msg : String) : Bool := goHasSuffix msg tooManyFilesMsg

/-! ## The port probe (`fcScan.go`, `scanPort`, lines 103-141) -/

/-- Outcome of one `net.DialTimeout` call: success, or an error with the
result of the `*net.OpError` type assertion and the `Error()` text. -/
inductive ConnectOutcome where
  | success
  | failure (isOpError : Bool) (msg : String)
  deriving DecidableEq, Repr

/-- The connect timeout of `scanPort`: `milli := 3000`. -/
def connectTimeoutMillis : Nat := 3000

/-- Observable actions of one `scanPort` invocation, in program order. -/
inductive ScanEv where
  | acquire (n : Nat)
  | dialAttempt (timeoutMs : Nat)
  | send (r : PortResults)
  | release (n : Nat)
  | sleepMs (n : Nat)
  | respawn
  deriving DecidableEq, Repr

/-- Result of one `scanPort` invocation: the target status after the probe,
the `PortResults` value delivered on the channel (`none` when the probe
re-spawned itself instead of sending), and the event trace. -/
structure ScanPortRun where
  status : TargetStatus
  sent : Option PortResults
  events : List ScanEv
  deriving DecidableEq, Repr

/-- `(t *Target) scanPort(p, ch, lock)` from `fcScan.go` lines 103-141,
as a function of the target status at the probe's read of `t.Status`
and of the dial outcome. -/
def scanPort (st : TargetStatus) (p : Port) (oc : ConnectOutcome) : ScanPortRun :=
  match oc with
  | .success =>
    let res : PortResults := { Open := [p], Closed := [], Filtered := [] }
    { status := .Online, sent := some res,
      events := [.acquire 1, .dialAttempt connectTimeoutMillis, .send res, .release 1] }
  | .failure isOpError msg =>
    if isOpError then
      let st1 : TargetStatus :=
        if st = .Unknown ∨ st = .OfflineFiltered then
          if refusedErr msg then .Online
          else if ioTimeoutErr msg ∧ st = .Unknown then .OfflineFiltered
          else st
        else st
      let res : PortResults :=
        { Open := []
          Closed := if refusedErr msg then [p] else []
          Filtered := if ioTimeoutErr msg then [p] else [] }
      if tooManyErr msg then
        { status := st1, sent := none,
          events := [.acquire 1, .dialAttempt connectTimeoutMillis,
                     .sleepMs connectTimeoutMillis, .respawn, .release 1] }
      else
        { status := st1, sent := some res,
          events := [.acquire 1, .dialAttempt connectTimeoutMillis, .release 1, .send res] }
    else
      { status := st, sent := some emptyPortResults,
        events := [.acquire 1, .dialAttempt connectTimeoutMillis, .release 1,
                   .send emptyPortResults] }

/-! ## Disjointness of the matched error suffixes -/

/-- Two strings that are not suffixes of one another are never both suffixes
of the same string. -/
theorem goHasSuffix_not_both {a b : String}
    (hab : goHasSuffix b a = false) (hba : goHasSuffix a b = false) :
    ∀ s : String, goHasSuffix s a = true → goHasSuffix s b = true → False := by
  intro s hsa hsb
  rw [goHasSuffix, List.isSuffixOf_iff_suffix] at hsa hsb
  rcases List.suffix_or_suffix_of_suffix hsa hsb with h | h
  · have hh : goHasSuffix b a = true := by
      rw [goHasSuffix, List.isSuffixOf_iff_suffix]; exact h
    rw [hab] at hh; cases hh
  · have hh : goHasSuffix a b = true := by
      rw [goHasSuffix, List.isSuffixOf_iff_suffix]; exact h
    rw [hba] at hh; cases hh

theorem refused_not_ioTimeout {msg : String} (h : refusedErr msg = true) :
    ioTimeoutErr msg = false := by
  rcases Bool.or_eq_true _ _ |>.mp h with hw | hu
  · by_contra hne
    exact goHasSuffix_not_both (by decide) (by decide) msg hw
      (Bool.not_eq_false _ |>.mp hne)
  · by_contra hne
    exact goHasSuffix_not_both (by decide) (by decide) msg hu
      (Bool.not_eq_false _ |>.mp hne)

theorem refused_not_tooMany {msg : String} (h : refusedErr msg = true) :
    tooManyErr msg = false := by
  rcases Bool.or_eq_true _ _ |>.mp h with hw | hu
  · by_contra hne
    exact goHasSuffix_not_both (by decide) (by decide) msg hw
      (Bool.not_eq_false _ |>.mp hne)
  · by_contra hne
    exact goHasSuffix_not_both (by decide) (by decide) msg hu
      (Bool.not_eq_false _ |>.mp hne)

theorem ioTimeout_not_refused {msg : String} (h : ioTimeoutErr msg = true) :
    refusedErr msg = false := by
  by_contra hne
  have := Bool.not_eq_false _ |>.mp hne
  exact absurd h (by simp [refused_not_ioTimeout this])

theorem ioTimeout_not_tooMany {msg : String} (h : ioTimeoutErr msg = true) :
    tooManyErr msg = false := by
  by_contra hne
  exact goHasSuffix_not_both (a := ioTimeoutMsg) (b := tooManyFilesMsg)
    (by decide) (by decide) msg h (Bool.not_eq_false _ |>.mp hne)

/-- C1: the single TCP connect outcome determines the port's classification in
the probe's `PortResults`: success puts the port in `Open`; a refusal error
(Unix or Windows text) puts it in `Closed` and never in `Open` or `Filtered`;
an "i/o timeout" error puts it in `Filtered`; any other connect error leaves
the port in none of the three buckets (either nothing is sent because the
probe re-spawns, or the empty result is sent). -/
theorem scanPort_classification (st : TargetStatus) (p : Port) :
    ((scanPort st p .success).sent = some { Open := [p], Closed := [], Filtered := [] })
    ∧ (∀ msg, refusedErr msg = true →
        (scanPort st p (.failure true msg)).sent =
          some { Open := [], Closed := [p], Filtered := [] })
    ∧ (∀ msg, ioTimeoutErr msg = true →
        (scanPort st p (.failure true msg)).sent =
          some { Open := [], Closed := [], Filtered := [p] })
    ∧ (∀ msg, refusedErr msg = false → ioTimeoutErr msg = false →
        (scanPort st p (.failure true msg)).sent = none ∨
          (scanPort st p (.failure true msg)).sent = some emptyPortResults)
    ∧ (∀ msg, (scanPort st p (.failure false msg)).sent = some emptyPortResults) := by
  refine ⟨rfl, ?_, ?_, ?_, fun _ => rfl⟩
  · intro msg h
    simp [scanPort, h, refused_not_ioTimeout h, refused_not_tooMany h]
  · intro msg h
    simp [scanPort, h, ioTimeout_not_refused h, ioTimeout_not_tooMany h]
  · intro msg h1 h2
    by_cases h3 : tooManyErr msg = true
    · left; simp [scanPort, h1, h2, h3]
    · right
      simp [scanPort, h1, h2, Bool.not_eq_true _ |>.mp h3, emptyPortResults]

/-- Witness for C1 at concrete probe outcomes. -/
theorem scanPort_classification_witness :
    ((scanPort .Unknown ⟨80, "tcp"⟩
        (.failure true "dial tcp 10.0.0.1:80: connect: connection refused")).sent =
      some { Open := [], Closed := [⟨80, "tcp"⟩], Filtered := [] })
    ∧ ((scanPort .Unknown ⟨443, "tcp"⟩
        (.failure true "dial tcp 10.0.0.1:443: i/o timeout")).sent =
      some { Open := [], Closed := [], Filtered := [⟨443, "tcp"⟩] })
    ∧ ((scanPort .Unknown ⟨22, "tcp"⟩
        (.failure true "dial tcp: lookup example.invalid: no such host")).sent = none ∨
      (scanPort .Unknown ⟨22, "tcp"⟩
        (.failure true "dial tcp: lookup example.invalid: no such host")).sent =
        some emptyPortResults) :=
  ⟨(scanPort_classification .Unknown ⟨80, "tcp"⟩).2.1 _ (by decide),
   (scanPort_classification .Unknown ⟨443, "tcp"⟩).2.2.1 _ (by decide),
   (scanPort_classification .Unknown ⟨22, "tcp"⟩).2.2.2.1 _ (by decide) (by decide)⟩

/-- C2: the status update of one port probe: success forces `Online`
unconditionally; a refusal error upgrades to `Online` exactly when the current
status is `Unknown` or `OfflineFiltered`; an "i/o timeout" error moves the
status to `OfflineFiltered` exactly when it is `Unknown`; every other outcome
leaves the status unchanged. -/
theorem scanPort_status_update (st : TargetStatus) (p : Port) :
    ((scanPort st p .success).status = .Online)
    ∧ (∀ msg, refusedErr msg = true →
        (scanPort st p (.failure true msg)).status =
          if st = .Unknown ∨ st = .OfflineFiltered then .Online else st)
    ∧ (∀ msg, ioTimeoutErr msg = true →
        (scanPort st p (.failure true msg)).status =
          if st = .Unknown then .OfflineFiltered else st)
    ∧ (∀ msg, refusedErr msg = false → ioTimeoutErr msg = false →
        (scanPort st p (.failure true msg)).status = st)
    ∧ (∀ msg, (scanPort st p (.failure false msg)).status = st) := by
  refine ⟨rfl, ?_, ?_, ?_, fun _ => rfl⟩
  · intro msg h
    cases htm : tooManyErr msg <;> cases st <;> simp [scanPort, h, htm]
  · intro msg h
    have hr := ioTimeout_not_refused h
    cases htm : tooManyErr msg <;> cases st <;> simp [scanPort, h, hr, htm]
  · intro msg h1 h2
    cases htm : tooManyErr msg <;> cases st <;> simp [scanPort, h1, h2, htm]

/-- Witness for C2 at concrete probe outcomes. -/
theorem scanPort_status_update_witness :
    ((scanPort .OfflineFiltered ⟨80, "tcp"⟩
        (.failure true "dial tcp 10.0.0.1:80: connect: connection refused")).status =
      if TargetStatus.OfflineFiltered = .Unknown ∨
          TargetStatus.OfflineFiltered = .OfflineFiltered then .Online
        else .OfflineFiltered)
    ∧ ((scanPort .Unknown ⟨443, "tcp"⟩
        (.failure true "dial tcp 10.0.0.1:443: i/o timeout")).status =
      if TargetStatus.Unknown = .Unknown then .OfflineFiltered else .Unknown)
    ∧ ((scanPort .Unknown ⟨22, "tcp"⟩
        (.failure true "dial tcp: lookup example.invalid: no such host")).status =
      .Unknown) :=
  ⟨(scanPort_status_update .OfflineFiltered ⟨80, "tcp"⟩).2.1 _ (by decide),
   (scanPort_status_update .Unknown ⟨443, "tcp"⟩).2.2.1 _ (by decide),
   (scanPort_status_update .Unknown ⟨22, "tcp"⟩).2.2.2.1 _ (by decide) (by decide)⟩

/-- C7: from `Unknown`, applying the status update of one refusal outcome and
one "i/o timeout" outcome yields `Online` in both application orders. -/
theorem scanPort_status_merge (p q : Port) (msgR msgT : String)
    (hR : refusedErr msgR = true) (hT : ioTimeoutErr msgT = true) :
    ((scanPort (scanPort .Unknown p (.failure true msgR)).status q
        (.failure true msgT)).status = .Online)
    ∧ ((scanPort (scanPort .Unknown p (.failure true msgT)).status q
        (.failure true msgR)).status = .Online) := by
  constructor
  · have h1 : (scanPort .Unknown p (.failure true msgR)).status = .Online := by
      cases htm : tooManyErr msgR <;> simp [scanPort, hR, htm]
    rw [h1]
    cases htm : tooManyErr msgT <;> simp [scanPort, htm]
  · have h1 : (scanPort .Unknown p (.failure true msgT)).status = .OfflineFiltered := by
      have hr := ioTimeout_not_refused hT
      cases htm : tooManyErr msgT <;> simp [scanPort, hT, hr, htm]
    rw [h1]
    cases htm : tooManyErr msgR <;> simp [scanPort, hR, htm]

/-- Witness for C7 at concrete refusal and timeout messages. -/
theorem scanPort_status_merge_witness :
    ((scanPort (scanPort .Unknown ⟨80, "tcp"⟩
        (.failure true "dial tcp 10.0.0.1:80: connect: connection refused")).status
        ⟨443, "tcp"⟩ (.failure true "dial tcp 10.0.0.1:443: i/o timeout")).status = .Online)
    ∧ ((scanPort (scanPort .Unknown ⟨80, "tcp"⟩
        (.failure true "dial tcp 10.0.0.1:443: i/o timeout")).status
        ⟨443, "tcp"⟩
        (.failure true "dial tcp 10.0.0.1:80: connect: connection refused")).status =
      .Online) := by
  have h := scanPort_status_merge ⟨80, "tcp"⟩ ⟨443, "tcp"⟩
    "dial tcp 10.0.0.1:80: connect: connection refused"
    "dial tcp 10.0.0.1:443: i/o timeout" (by decide) (by decide)
  exact h

/-- C3 counterexample: for a "too many open files" outcome the probe sleeps
first, re-spawns, and releases its Governor weight only afterwards — the
release does not precede the pause as the claim states. -/
theorem scanPort_tooMany_order_counterexample :
    ((scanPort .Unknown ⟨80, "tcp"⟩
        (.failure true "dial tcp 10.0.0.1:80: socket: too many open files")).events =
      [.acquire 1, .dialAttempt 3000, .sleepMs 3000, .respawn, .release 1])
    ∧ ((scanPort .Unknown ⟨80, "tcp"⟩
        (.failure true "dial tcp 10.0.0.1:80: socket: too many open files")).events ≠
      [.acquire 1, .dialAttempt 3000, .release 1, .sleepMs 3000, .respawn]) := by
  constructor
  · decide
  · decide

/-- C3 amended: on a "too many open files" connect error the probe pauses for
the full 3-second connect timeout while still holding its reserved Governor
weight of 1, re-spawns the same port probe as a new concurrent unit, and only
then releases the weight; it delivers no result on the channel for the failed
attempt. -/
theorem scanPort_tooMany_retry (st : TargetStatus) (p : Port) (msg : String)
    (h : tooManyErr msg = true) :
    ((scanPort st p (.failure true msg)).events =
      [.acquire 1, .dialAttempt connectTimeoutMillis, .sleepMs connectTimeoutMillis,
       .respawn, .release 1])
    ∧ ((scanPort st p (.failure true msg)).sent = none) := by
  constructor <;> simp [scanPort, h]

/-! ## The Address Expander, CIDR branch (`targets.go`, `ParseHostString`
lines 176-181)

IPv4 addresses are modelled as natural numbers below `2 ^ 32` (the value of
the 4-byte `net.IP`).  `net.ParseCIDR` on a valid token `a.b.c.d/n` yields the
given address and the `/n` mask; `ip.Mask(ipNet.Mask)` clears the low
`32 - n` bits; `ipNet.Contains(ip)` masks its argument and compares with the
network address. -/

/-- The number of IPv4 addresses, `2 ^ 32`. -/
def ipv4Space : Nat := 2 ^ 32

/-- The number of addresses in a `/n` block, `2 ^ (32 - n)`. -/
def blockSize (n : Nat) : Nat := 2 ^ (32 - n)

/-- `ip.Mask(ipNet.Mask)` for a `/n` mask: clear the low `32 - n` bits. -/
def maskAddr (a n : Nat) : Nat := a / blockSize n * blockSize n

/-- `ipNet.Contains(ip)`: mask the address and compare with the network. -/
def cidrContains (network n a : Nat) : Bool := maskAddr a n == network

/-- Modelled from the spec: `helper.IncIp` is not under src/.  The spec says
addresses are produced "by incrementing from the masked network address"; the
incremented value is a 4-byte `net.IP`, so 255.255.255.255 wraps to 0.0.0.0. -/
def incIp (a : Nat) : Nat := (a + 1) % ipv4Space

/-- The CIDR loop of `ParseHostString`:
`for ip := ip.Mask(ipNet.Mask); ipNet.Contains(ip); helper.IncIp(ip)`,
collecting the spawned addresses.  The `Bool` records whether the loop exited
through its condition within the given fuel (the real loop has no fuel; a
`false` means the real loop is still running at that point). -/
def expandLoop (network n : Nat) : Nat → Nat → List Nat × Bool
  | _, 0 => ([], false)
  | cur, fuel + 1 =>
    if cidrContains network n cur then
      let r := expandLoop network n (incIp cur) fuel
      (cur :: r.1, r.2)
    else ([], true)

/-- The full CIDR expansion of one token `a/n`. -/
def parseCIDRExpand (a n fuel : Nat) : List Nat × Bool :=
  expandLoop (maskAddr a n) n (maskAddr a n) fuel

theorem expandLoop_succ (network n cur fuel : Nat) :
    expandLoop network n cur (fuel + 1) =
      if cidrContains network n cur then
        (cur :: (expandLoop network n (incIp cur) fuel).1,
          (expandLoop network n (incIp cur) fuel).2)
      else ([], true) := rfl

theorem maskAddr_add_le {a n : Nat} (ha : a < ipv4Space) (hn : n ≤ 32) :
    maskAddr a n + blockSize n ≤ ipv4Space := by
  have hpos : 0 < blockSize n := Nat.pos_pow_of_pos _ (by norm_num)
  have hdvd : blockSize n ∣ ipv4Space := pow_dvd_pow 2 (by omega)
  have hlt : a / blockSize n < ipv4Space / blockSize n :=
    Nat.div_lt_div_of_lt_of_dvd hdvd ha
  have h1 : (a / blockSize n + 1) * blockSize n ≤
      (ipv4Space / blockSize n) * blockSize n :=
    Nat.mul_le_mul_right _ hlt
  rw [Nat.div_mul_cancel hdvd] at h1
  calc maskAddr a n + blockSize n = (a / blockSize n + 1) * blockSize n := by
        rw [maskAddr, Nat.succ_mul]
    _ ≤ ipv4Space := h1

theorem maskAddr_add_of_lt {a n j : Nat} (hj : j < blockSize n) :
    maskAddr (maskAddr a n + j) n = maskAddr a n := by
  have hpos : 0 < blockSize n := Nat.pos_pow_of_pos _ (by norm_num)
  have h1 : (maskAddr a n + j) / blockSize n = a / blockSize n := by
    rw [maskAddr, Nat.mul_comm (a / blockSize n) (blockSize n),
      Nat.mul_add_div hpos, Nat.div_eq_of_lt hj, Nat.add_zero]
  rw [maskAddr, h1, maskAddr]

theorem cidrContains_in_block {a n j : Nat} (hj : j < blockSize n) :
    cidrContains (maskAddr a n) n (maskAddr a n + j) = true := by
  simp [cidrContains, maskAddr_add_of_lt hj]

theorem cidrContains_boundary {a n : Nat} (ha : a < ipv4Space) (hn1 : 1 ≤ n)
    (hn : n ≤ 32) :
    cidrContains (maskAddr a n) n ((maskAddr a n + blockSize n) % ipv4Space) = false := by
  have hpos : 0 < blockSize n := Nat.pos_pow_of_pos _ (by norm_num)
  have hsz : blockSize n < ipv4Space := by
    rw [blockSize, ipv4Space]
    exact Nat.pow_lt_pow_right (by norm_num) (by omega)
  rcases Nat.lt_or_ge (maskAddr a n + blockSize n) ipv4Space with hlt | hge
  · rw [Nat.mod_eq_of_lt hlt]
    have hdvd2 : blockSize n ∣ maskAddr a n + blockSize n :=
      ⟨a / blockSize n + 1, by rw [maskAddr]; ring⟩
    have h2 : maskAddr (maskAddr a n + blockSize n) n = maskAddr a n + blockSize n := by
      rw [maskAddr, Nat.div_mul_cancel hdvd2]
    simp only [cidrContains, h2, beq_eq_false_iff_ne, ne_eq]
    omega
  · have heq : maskAddr a n + blockSize n = ipv4Space :=
      Nat.le_antisymm (maskAddr_add_le ha hn) hge
    rw [heq, Nat.mod_self]
    have h0 : maskAddr 0 n = 0 := by simp [maskAddr, Nat.zero_div]
    simp only [cidrContains, h0, beq_eq_false_iff_ne, ne_eq]
    omega

theorem expandLoop_run {a n : Nat} (ha : a < ipv4Space) (hn1 : 1 ≤ n)
    (hn : n ≤ 32) :
    ∀ k, k ≤ blockSize n →
      expandLoop (maskAddr a n) n ((maskAddr a n + blockSize n - k) % ipv4Space) (k + 1) =
        (List.range' (maskAddr a n + blockSize n - k) k, true) := by
  have hub := maskAddr_add_le ha hn
  intro k
  induction k with
  | zero =>
    intro _
    have hb := cidrContains_boundary ha hn1 hn
    simp only [Nat.sub_zero, expandLoop, hb, Bool.false_eq_true, if_false,
      List.range'_zero]
  | succ k ih =>
    intro hk
    have hlt : maskAddr a n + blockSize n - (k + 1) < ipv4Space := by omega
    have hcur : (maskAddr a n + blockSize n - (k + 1)) % ipv4Space =
        maskAddr a n + blockSize n - (k + 1) := Nat.mod_eq_of_lt hlt
    have hj : maskAddr a n + blockSize n - (k + 1) =
        maskAddr a n + (blockSize n - (k + 1)) := by omega
    have hcont : cidrContains (maskAddr a n) n
        (maskAddr a n + blockSize n - (k + 1)) = true := by
      rw [hj]; exact cidrContains_in_block (by omega)
    have hinc : incIp (maskAddr a n + blockSize n - (k + 1)) =
        (maskAddr a n + blockSize n - k) % ipv4Space := by
      have harg1 : maskAddr a n + blockSize n - (k + 1) + 1 =
          maskAddr a n + blockSize n - k := by omega
      rw [incIp, harg1]
    have harg : maskAddr a n + blockSize n - (k + 1) + 1 =
        maskAddr a n + blockSize n - k := by omega
    rw [hcur, expandLoop_succ, if_pos hcont, hinc, ih (by omega),
      List.range'_succ, harg]

/-- C5 counterexample: for the valid CIDR token `0.0.0.0/0` the expansion
loop never exits (every address is contained in the `/0` block, and the
incremented 4-byte address wraps around), so the expander does not spawn
exactly `2 ^ 32` addresses and stop. -/
theorem cidrExpand_slash0_counterexample :
    ¬ ∃ fuel, (parseCIDRExpand 0 0 fuel).2 = true := by
  have key : ∀ fuel cur, cur < ipv4Space → (expandLoop 0 0 cur fuel).2 = false := by
    intro fuel
    induction fuel with
    | zero => intro cur _; rfl
    | succ k ih =>
      intro cur h
      have hc : cidrContains 0 0 cur = true := by
        have hd : cur / blockSize 0 = 0 := Nat.div_eq_of_lt h
        simp [cidrContains, maskAddr, hd]
      simp only [expandLoop, hc, if_true]
      exact ih _ (Nat.mod_lt _ (by norm_num [ipv4Space]))
  rintro ⟨fuel, hf⟩
  have h0 : maskAddr 0 0 = 0 := by simp [maskAddr, Nat.zero_div]
  rw [parseCIDRExpand, h0] at hf
  rw [key fuel 0 (by norm_num [ipv4Space])] at hf
  cases hf

/-- C5 amended: for every valid CIDR token `a.b.c.d/n` with `1 ≤ n ≤ 32` the
expansion loop exits after spawning exactly `2 ^ (32 - n)` addresses — the
consecutive addresses from the masked network address — each contained in the
block, each distinct, including the network address and the broadcast
address. -/
theorem cidrExpand_amended (a n : Nat) (ha : a < ipv4Space) (hn1 : 1 ≤ n)
    (hn : n ≤ 32) :
    ((parseCIDRExpand a n (blockSize n + 1)).2 = true)
    ∧ ((parseCIDRExpand a n (blockSize n + 1)).1 =
        List.range' (maskAddr a n) (blockSize n))
    ∧ ((parseCIDRExpand a n (blockSize n + 1)).1.length = 2 ^ (32 - n))
    ∧ ((parseCIDRExpand a n (blockSize n + 1)).1.Nodup)
    ∧ (∀ x ∈ (parseCIDRExpand a n (blockSize n + 1)).1,
        cidrContains (maskAddr a n) n x = true)
    ∧ (maskAddr a n ∈ (parseCIDRExpand a n (blockSize n + 1)).1)
    ∧ (maskAddr a n + blockSize n - 1 ∈ (parseCIDRExpand a n (blockSize n + 1)).1) := by
  have hpos : 0 < blockSize n := Nat.pos_pow_of_pos _ (by norm_num)
  have hub := maskAddr_add_le ha hn
  have hrun := expandLoop_run ha hn1 hn (blockSize n) (Nat.le_refl _)
  have hstart : (maskAddr a n + blockSize n - blockSize n) % ipv4Space =
      maskAddr a n := by
    rw [Nat.add_sub_cancel]; exact Nat.mod_eq_of_lt (by omega)
  rw [hstart] at hrun
  have hmain : parseCIDRExpand a n (blockSize n + 1) =
      (List.range' (maskAddr a n) (blockSize n), true) := by
    rw [parseCIDRExpand, hrun]; congr 2; omega
  refine ⟨by rw [hmain], by rw [hmain], ?_, ?_, ?_, ?_, ?_⟩
  · rw [hmain]; simp [blockSize]
  · rw [hmain]; exact List.nodup_range' _ _
  · intro x hx
    rw [hmain] at hx
    simp only [List.mem_range'_1] at hx
    have hj : x = maskAddr a n + (x - maskAddr a n) := by omega
    rw [hj]
    exact cidrContains_in_block (by omega)
  · rw [hmain]; simp only [List.mem_range'_1]; omega
  · rw [hmain]; simp only [List.mem_range'_1]; omega

/-! ## The Address Expander, dash-range branch (`targets.go`,
`ParseHostString` lines 182-197 and `octetsToTargets` lines 498-510) -/

/-- `strings.Split` on a one-character separator, on character lists. -/
def splitOnChar (sep : Char) : List Char → List (List Char)
  | [] => [[]]
  | c :: rest =>
    let r := splitOnChar sep rest
    if c = sep then [] :: r
    else
      match r with
      | [] => [[c]]
      | h :: t => (c :: h) :: t

/-- `strings.Split(s, sep)` for the one-character separators used by the
expander. -/
def goSplit (s : String) (sep : Char) : List String :=
  (splitOnChar sep s.data).map String.mk

/-- Decimal parse of a non-negative token, `none` on a malformed one
(`strconv.Atoi` error semantics for the tokens the expander meets). -/
def parseNatChars (l : List Char) : Option Nat :=
  if l ≠ [] ∧ l.all (·.isDigit) then
    some (l.foldl (fun acc c => acc * 10 + (c.toNat - 48)) 0)
  else none

/-- `strconv.Atoi` with its error ignored as in
`p, _ := strconv.Atoi(addrPart)`: a failed parse leaves the zero value. -/
def goAtoi (s : String) : Nat := (parseNatChars s.data).getD 0

/-- Modelled from the spec: `helper.StrRangeToArray` is not under src/.  The
spec says a dashed octet denotes "the inclusive integer range denoted by the
dash", so `"1-3"` becomes `[1, 2, 3]`. -/
def strRangeToArray (s : String) : List Nat :=
  match goSplit s '-' with
  | [lo, hi] => List.range' (goAtoi lo) (goAtoi hi + 1 - goAtoi lo)
  | _ => []

/-- The per-octet candidate set built by the dash-range branch: a dashed part
expands through `strRangeToArray`, any other part is `strconv.Atoi`'d (the
ignored error leaves 0). -/
def octetCandidates (part : String) : List Nat :=
  if part.data.contains '-' then strRangeToArray part
  else [goAtoi part]

/-- `octetsToTargets` (`targets.go` lines 498-510): the Cartesian product of
the four candidate sets, first octet outermost, fourth octet innermost,
rendered as dotted-quad strings. -/
def octetsToTargets (o0 o1 o2 o3 : List Nat) : List String :=
  o0.flatMap fun a =>
    o1.flatMap fun b =>
      o2.flatMap fun c =>
        o3.map fun d =>
          toString a ++ "." ++ toString b ++ "." ++ toString c ++ "." ++ toString d

/-- The dash-range branch of `ParseHostString` for one validated token:
split on ".", expand each octet, take the Cartesian product.  (The source
writes the four candidate sets into a `[4][]int` array; a validated range
token always has exactly four dot-separated parts.) -/
def dashRangeExpand (hostArg : String) : List String :=
  match (goSplit hostArg '.').map octetCandidates with
  | [o0, o1, o2, o3] => octetsToTargets o0 o1 o2 o3
  | _ => []

/-- C6: the dash-range token `10.0.1-3.5` expands to exactly the three
addresses `10.0.1.5`, `10.0.2.5`, `10.0.3.5`, in ascending Cartesian-product
iteration order. -/
theorem dashRangeExpand_10_0_1_3_5 :
    dashRangeExpand "10.0.1-3.5" = ["10.0.1.5", "10.0.2.5", "10.0.3.5"] := by
  rfl

/-- Witness for the amended C5 on the block `10.0.0.0/30`. -/
theorem cidrExpand_amended_witness :
    ((parseCIDRExpand 167772160 30 (blockSize 30 + 1)).2 = true)
    ∧ ((parseCIDRExpand 167772160 30 (blockSize 30 + 1)).1 =
        List.range' (maskAddr 167772160 30) (blockSize 30))
    ∧ ((parseCIDRExpand 167772160 30 (blockSize 30 + 1)).1.length = 2 ^ (32 - 30))
    ∧ ((parseCIDRExpand 167772160 30 (blockSize 30 + 1)).1.Nodup)
    ∧ (∀ x ∈ (parseCIDRExpand 167772160 30 (blockSize 30 + 1)).1,
        cidrContains (maskAddr 167772160 30) 30 x = true)
    ∧ (maskAddr 167772160 30 ∈ (parseCIDRExpand 167772160 30 (blockSize 30 + 1)).1)
    ∧ (maskAddr 167772160 30 + blockSize 30 - 1 ∈
        (parseCIDRExpand 167772160 30 (blockSize 30 + 1)).1) :=
  cidrExpand_amended 167772160 30 (by norm_num [ipv4Space]) (by norm_num)
    (by norm_num)

/-! ## Target construction (`targets.go`)

`net.IP` is a byte slice; `Target` mirrors the Go struct (round-trip times as
nanosecond counts; timestamps are not modelled).  The DNS, ICMP, ARP and
vendor collaborators are oracle functions (§6 of the design): `Resolve` and
`AsyncNewTarget` below are the control flow of the source over those
oracles. -/

/-- `net.IP`: a byte slice. -/
structure GoIP where
  bytes : List Nat
  deriving DecidableEq, Repr

/-- Go's `string(ip)` conversion: the raw bytes of the `net.IP` reinterpreted
as characters — not the dotted textual form produced by `ip.String()`. -/
def GoIP.rawString (ip : GoIP) : String := String.mk (ip.bytes.map Char.ofNat)

/-- `net.IP.String()` for a 4-byte address: the dotted-quad form. -/
def GoIP.dotted (ip : GoIP) : String :=
  match ip.bytes with
  | [a, b, c, d] =>
    toString a ++ "." ++ toString b ++ "." ++ toString c ++ "." ++ toString d
  | _ => "?"

/-- `pScan.Target` (`targets.go` lines 111-121). -/
structure Target where
  hostName : String
  vendor : String
  ipAddr : Option GoIP
  macAddr : Option (List Nat)
  initialTarget : String
  status : TargetStatus
  location : NetworkLocation
  ports : List Port
  rtts : List Nat
  deriving DecidableEq, Repr

/-- The zero-valued `Target` literal `&Target{InitialTarget: t, Ports: ports,
Status: Unknown}` built by `NewTarget` / `AsyncNewTarget`. -/
def newTargetInit (tok : String) (ports : List Port) : Target :=
  { hostName := "", vendor := "", ipAddr := none, macAddr := none,
    initialTarget := tok, status := .Unknown, location := .unspecified,
    ports := ports, rtts := [] }

/-- Collaborator oracles used by `Resolve`:
* `validate` is `helper.ValidateIPOrRange` (repository helper not under
  src/), the syntactic IP-or-range test;
* `lookupAddr s` is `net.LookupAddr(s)`: the first returned hostname, or
  `none` on error;
* `lookupIP s` is `net.LookupIP(s)`: the first returned IP, or `none` on
  error (the Go call errors exactly when it has no address to return);
* `parseIP` is `net.ParseIP`. -/
structure ResolveEnv where
  validate : String → Bool
  lookupAddr : String → Option String
  lookupIP : String → Option GoIP
  parseIP : String → Option GoIP

/-- The DNS queries issued by one `Resolve` call, with their argument
strings, in program order. -/
inductive RQuery where
  | lookupAddr (arg : String)
  | lookupIP (arg : String)
  deriving DecidableEq, Repr

/-- `(t *Target) Resolve()` (`targets.go` lines 213-238), returning the
updated target and the trace of DNS queries.  Note the hostname branch calls
`net.LookupAddr(string(t.IPAddr))` — the raw-byte string of the IP. -/
def Target.resolve (env : ResolveEnv) (t : Target) : Target × List RQuery :=
  if env.validate t.initialTarget then
    let hn := match env.lookupAddr t.initialTarget with
      | none => "N/A"
      | some h => h
    ({ t with hostName := hn, ipAddr := env.parseIP t.initialTarget },
      [.lookupAddr t.initialTarget])
  else
    match env.lookupIP t.initialTarget with
    | some ip =>
      let hn := match env.lookupAddr ip.rawString with
        | some h => h
        | none => t.initialTarget
      ({ t with ipAddr := some ip, hostName := hn },
        [.lookupIP t.initialTarget, .lookupAddr ip.rawString])
    | none =>
      ({ t with ipAddr := none, status := .OfflineFiltered },
        [.lookupIP t.initialTarget])

/-- Collaborator oracles for the probe phase of target construction:
* `pingStats ip` is the `(Rtts, PacketsRecv)` outcome of `h.Ping(3, …)`;
* `macProbe ip` is the net effect of `h.QueryMac()`: the resulting
  `Location`, `MACAddr`, and whether the ARP reply upgraded the status to
  `Online` (the only fields `QueryMac` assigns);
* `vendorLookup mac` is `macLookup.LookupVendor`: the vendor name, or `none`
  on lookup error. -/
structure ProbeEnv where
  pingStats : GoIP → List Nat × Nat
  macProbe : GoIP → NetworkLocation × Option (List Nat) × Bool
  vendorLookup : List Nat → Option String

/-- The construction phases actually run for one target. -/
inductive PhaseEv where
  | resolve
  | ping
  | queryMac
  | lookupVendor
  deriving DecidableEq, Repr

/-- `AsyncNewTarget` (`targets.go` lines 140-158): build the zero target,
resolve it; when an IP was resolved, ping (upgrading to `Online` on any
received packet), query the MAC, and look up the vendor; otherwise clear the
MAC and mark the location unknown. -/
def asyncNewTarget (renv : ResolveEnv) (penv : ProbeEnv) (tok : String)
    (ports : List Port) : Target × List PhaseEv :=
  let h := (Target.resolve renv (newTargetInit tok ports)).1
  match h.ipAddr with
  | some ip =>
    let ps := penv.pingStats ip
    let h2 := { h with rtts := ps.1,
                       status := if ps.2 > 0 then .Online else h.status }
    let mp := penv.macProbe ip
    let h3 := { h2 with location := mp.1, macAddr := mp.2.1,
                        status := if mp.2.2 then .Online else h2.status }
    let h4 := { h3 with vendor := match h3.macAddr with
                  | some m => (penv.vendorLookup m).getD "N/A"
                  | none => "N/A" }
    (h4, [.resolve, .ping, .queryMac, .lookupVendor])
  | none =>
    ({ h with macAddr := none, location := .UnknownLoc }, [.resolve])

/-- The concrete forward-lookup result used in the C8 analysis. -/
def exampleIP : GoIP := ⟨[93, 184, 216, 34]⟩

/-- A resolver environment for a hostname token that forward-resolves to
`exampleIP` and whose reverse lookups all fail. -/
def exampleResolveEnv : ResolveEnv :=
  { validate := fun _ => false
    lookupAddr := fun _ => none
    lookupIP := fun _ => some exampleIP
    parseIP := fun _ => none }

/-- C8 (code bug): for a hostname token whose forward lookup succeeds, the
reverse lookup is issued on `string(t.IPAddr)` — the raw bytes of the IP
reinterpreted as a string — and not on the textual address, so it cannot
name the resolved IP; the failure fallback to the original hostname string
is confirmed. -/
theorem resolve_reverse_lookup_on_raw_bytes :
    ((Target.resolve exampleResolveEnv (newTargetInit "example.com" [])).2 =
      [.lookupIP "example.com", .lookupAddr exampleIP.rawString])
    ∧ (exampleIP.rawString ≠ exampleIP.dotted)
    ∧ ((Target.resolve exampleResolveEnv (newTargetInit "example.com" [])).1.hostName
      = "example.com")
    ∧ ((Target.resolve exampleResolveEnv (newTargetInit "example.com" [])).1.ipAddr
      = some exampleIP) := by
  refine ⟨rfl, ?_, rfl, rfl⟩
  decide

/-! ## The scan pipeline (`fcScan.go`, `Targets.Scan` / `Target.scan`)

Concurrent fan-out/fan-in is modelled by sequential dispatch-order
collection: the claims settled here concern membership in the result
buckets, which is unaffected by completion order. -/

/-- The connect oracle of the scan phase: the outcome of the dial performed
by the given attempt (retry number) of a probe of this port against this
IP. -/
structure ScanEnv where
  connect : GoIP → Port → Nat → ConnectOutcome

/-- One port's probe including the "too many open files" re-spawn loop,
bounded by fuel (the real loop is unbounded; fuel exhaustion returns the
empty result, standing for a probe that is still retrying). -/
def runPortProbe (env : ScanEnv) (ip : GoIP) (p : Port) :
    TargetStatus → Nat → Nat → TargetStatus × PortResults
  | st, _, 0 => (st, emptyPortResults)
  | st, attempt, fuel + 1 =>
    let r := scanPort st p (env.connect ip p attempt)
    match r.sent with
    | some res => (r.status, res)
    | none => runPortProbe env ip p r.status (attempt + 1) fuel

/-- The fan-in accumulation of `Target.scan`: append each probe's buckets. -/
def PortResults.merge (x y : PortResults) : PortResults :=
  { Open := x.Open ++ y.Open
    Closed := x.Closed ++ y.Closed
    Filtered := x.Filtered ++ y.Filtered }

/-- `pScan.ScanResult` (timestamps are outside the model). -/
structure ScanResult where
  target : Target
  ports : PortResults
  deriving DecidableEq, Repr

/-- `(t *Target) scan(out, lock)` (`fcScan.go` lines 87-101): probe every
port of the target, merging the buckets and threading the status. -/
def targetScan (env : ScanEnv) (fuel : Nat) (t : Target) (ip : GoIP) :
    ScanResult :=
  let folded := t.ports.foldl
    (fun acc p =>
      let r := runPortProbe env ip p acc.1 0 fuel
      (r.1, PortResults.merge acc.2 r.2))
    (t.status, emptyPortResults)
  { target := { t with status := folded.1 }, ports := folded.2 }

/-- `pScan.MultiScanResult`. -/
structure MultiScanResult where
  resolved : List ScanResult
  unresolved : List Target
  deriving DecidableEq, Repr

/-- `(t Targets) Scan()` (`fcScan.go` lines 35-59): targets with a nil IP go
to `Unresolved`; every other target is dispatched to `scan` and its result
collected into `Resolved`. -/
def targetsScan (env : ScanEnv) (fuel : Nat) (ts : List Target) :
    MultiScanResult :=
  { unresolved := ts.filter (fun t => t.ipAddr.isNone)
    resolved := ts.filterMap (fun t => t.ipAddr.map (targetScan env fuel t)) }

/-- In `Resolve`, a null resulting IP leaves the status either
`OfflineFiltered` (failed forward lookup) or untouched (validated token whose
`net.ParseIP` failed). -/
theorem resolve_status_of_ipAddr_none (renv : ResolveEnv) (t : Target)
    (h : (Target.resolve renv t).1.ipAddr = none) :
    (Target.resolve renv t).1.status = .OfflineFiltered ∨
      (Target.resolve renv t).1.status = t.status := by
  rw [Target.resolve] at h ⊢
  by_cases hv : renv.validate t.initialTarget
  · simp only [if_pos hv]
    right; trivial
  · simp only [if_neg hv] at h ⊢
    cases hl : renv.lookupIP t.initialTarget with
    | none => simp only [hl]; left; trivial
    | some ip => simp [hl] at h

/-- C4: a target whose IP resolution failed has `UnknownLoc` location, no
MAC, status `OfflineFiltered` or `Unknown`, undergoes no ping/ARP/vendor
probing, and `Targets.Scan` routes it to `Unresolved` and never to
`Resolved`. -/
theorem unresolved_target_shortcircuit (renv : ResolveEnv) (penv : ProbeEnv)
    (tok : String) (ports : List Port) (senv : ScanEnv) (fuel : Nat)
    (ts : List Target) :
    ((asyncNewTarget renv penv tok ports).1.ipAddr = none →
      ((asyncNewTarget renv penv tok ports).1.location = .UnknownLoc)
      ∧ ((asyncNewTarget renv penv tok ports).1.macAddr = none)
      ∧ ((asyncNewTarget renv penv tok ports).1.status = .OfflineFiltered
        ∨ (asyncNewTarget renv penv tok ports).1.status = .Unknown)
      ∧ ((asyncNewTarget renv penv tok ports).2 = [.resolve]))
    ∧ (∀ t ∈ ts, t.ipAddr = none → t ∈ (targetsScan senv fuel ts).unresolved)
    ∧ (∀ r ∈ (targetsScan senv fuel ts).resolved, r.target.ipAddr ≠ none) := by
  refine ⟨?_, ?_, ?_⟩
  · intro hnil
    cases hres : (Target.resolve renv (newTargetInit tok ports)).1.ipAddr with
    | none =>
      refine ⟨?_, ?_, ?_, ?_⟩
      · simp [asyncNewTarget, hres]
      · simp [asyncNewTarget, hres]
      · have hst : (asyncNewTarget renv penv tok ports).1.status =
            (Target.resolve renv (newTargetInit tok ports)).1.status := by
          simp [asyncNewTarget, hres]
        rw [hst]
        rcases resolve_status_of_ipAddr_none renv (newTargetInit tok ports) hres
          with h1 | h1
        · exact Or.inl h1
        · exact Or.inr h1
      · simp [asyncNewTarget, hres]
    | some ip => simp [asyncNewTarget, hres] at hnil
  · intro t ht hnil
    simp only [targetsScan, List.mem_filter]
    exact ⟨ht, by rw [hnil]; rfl⟩
  · intro r hr
    simp only [targetsScan, List.mem_filterMap] at hr
    rcases hr with ⟨t, _, hmap⟩
    cases hip : t.ipAddr with
    | none => rw [hip] at hmap; cases hmap
    | some ip =>
      rw [hip] at hmap
      simp only [Option.map_some'] at hmap
      have hr2 : targetScan senv fuel t ip = r := Option.some.inj hmap
      have htgt : (targetScan senv fuel t ip).target.ipAddr = t.ipAddr := rfl
      rw [← hr2, htgt, hip]
      exact fun h => by cases h

/-- A resolver environment in which every lookup fails. -/
def failingResolveEnv : ResolveEnv :=
  { validate := fun _ => false
    lookupAddr := fun _ => none
    lookupIP := fun _ => none
    parseIP := fun _ => none }

/-- A probe environment that observes nothing. -/
def silentProbeEnv : ProbeEnv :=
  { pingStats := fun _ => ([], 0)
    macProbe := fun _ => (.unspecified, none, false)
    vendorLookup := fun _ => none }

/-- A connect oracle on which every dial succeeds. -/
def allOpenScanEnv : ScanEnv := { connect := fun _ _ _ => .success }

/-- Witness for C4: a hostname whose resolution fails end to end. -/
theorem unresolved_target_shortcircuit_witness :
    ((asyncNewTarget failingResolveEnv silentProbeEnv "unresolvable.example" []).1.location
      = .UnknownLoc)
    ∧ ((asyncNewTarget failingResolveEnv silentProbeEnv "unresolvable.example" []).1.macAddr
      = none)
    ∧ ((asyncNewTarget failingResolveEnv silentProbeEnv "unresolvable.example" []).1.status
        = .OfflineFiltered
      ∨ (asyncNewTarget failingResolveEnv silentProbeEnv "unresolvable.example" []).1.status
        = .Unknown)
    ∧ ((asyncNewTarget failingResolveEnv silentProbeEnv "unresolvable.example" []).2
      = [.resolve])
    ∧ (newTargetInit "unresolvable.example" [] ∈
        (targetsScan allOpenScanEnv 1 [newTargetInit "unresolvable.example" []]).unresolved) := by
  have h := unresolved_target_shortcircuit failingResolveEnv silentProbeEnv
    "unresolvable.example" [] allOpenScanEnv 1 [newTargetInit "unresolvable.example" []]
  have h1 := h.1 rfl
  exact ⟨h1.1, h1.2.1, h1.2.2.1, h1.2.2.2,
    h.2.1 _ (List.mem_singleton.mpr rfl) rfl⟩

/-! ## Governor construction (`fcScan.go` lines 39-47 and 65-73,
`targets.go` lines 165-173)

`ulimit.GetUlimit` is the external descriptor-limit collaborator
(`resolveDescriptorLimit() -> int, error` in §6); its outcome is the
`Except` argument. -/

/-- `semaphore.NewWeighted(limit)`: a Governor of the given capacity. -/
structure Governor where
  capacity : Int
  deriving DecidableEq, Repr

/-- `semaphore.NewWeighted`. -/
def newWeighted (limit : Int) : Governor := { capacity := limit }

/-- The Governor built by `Targets.Scan` (`fcScan.go` lines 39-47). -/
def targetsScanGovernor (ul : Except Unit Nat) : Governor :=
  let limit : Int := match ul with
    | .error _ => 1024
    | .ok l => (l : Int)
  newWeighted limit

/-- The Governor built by `Target.Scan` (`fcScan.go` lines 65-73). -/
def targetScanGovernor (ul : Except Unit Nat) : Governor :=
  let limit : Int := match ul with
    | .error _ => 1024
    | .ok l => (l : Int)
  newWeighted limit

/-- The Governor built by `ParseHostString` (`targets.go` lines 165-173). -/
def parseHostStringGovernor (ul : Except Unit Nat) : Governor :=
  let limit : Int := match ul with
    | .error _ => 1024
    | .ok l => (l : Int)
  newWeighted limit

/-- The spec's words: capacity is the descriptor limit supplied by the
ulimit collaborator, or the fixed fallback 1024 when that lookup fails. -/
def specGovernorCapacity (ul : Except Unit Nat) : Int :=
  match ul with
  | .ok l => (l : Int)
  | .error _ => 1024

/-- C9: each of the three Governors is created with capacity equal to the
ulimit collaborator's value, or 1024 when the lookup errs. -/
theorem governor_capacity (ul : Except Unit Nat) :
    ((targetsScanGovernor ul).capacity = specGovernorCapacity ul)
    ∧ ((targetScanGovernor ul).capacity = specGovernorCapacity ul)
    ∧ ((parseHostStringGovernor ul).capacity = specGovernorCapacity ul) := by
  cases ul <;> exact ⟨rfl, rfl, rfl⟩

/-! ## `Ports.String` and `Ports.Preview` (`netUtil/ports.go` lines 21-53)

Go's `ret[:j]` panics unless `0 ≤ j ≤ len(ret)`; the slice is embedded as an
`Option`-valued operation whose `none` stands for that panic, so both
renderers return `none` exactly on the inputs on which the Go code
panics. -/

/-- `(p *Port) String()`: `fmt.Sprintf("%d/%s", p.PortNo, p.Protocol)`. -/
def Port.goString (p : Port) : String := toString p.portNo ++ "/" ++ p.protocol

/-- Go's `s[:j]` on a string: `none` models the out-of-range panic. -/
def goSliceTo (s : String) (j : Int) : Option String :=
  if 0 ≤ j ∧ j ≤ (s.length : Int) then some (s.take j.toNat) else none

/-- The accumulation loop of `Ports.String` (and of the short branch of
`Ports.Preview`): append `p.String() + ", "`, and a newline after every
tenth entry except at the very start and the very end.  `total` is `len(ps)`
of the original sequence; `i` the running index. -/
def portsStringAux (total : Nat) : List Port → Nat → String
  | [], _ => ""
  | p :: rest, i =>
    Port.goString p ++ ", " ++
      (if i ≠ 0 ∧ i % 10 = 0 ∧ i + 1 ≠ total then "\n" else "") ++
      portsStringAux total rest (i + 1)

/-- `(ps Ports) String()` (`ports.go` lines 21-30): the loop then
`ret[:len(ret)-2]`. -/
def portsString (ps : List Port) : Option String :=
  let ret := portsStringAux ps.length ps 0
  goSliceTo ret ((ret.length : Int) - 2)

/-- The accumulation loop of the long branch of `Ports.Preview`, which puts
the newline before the entry. -/
def portsPreviewAux (total : Nat) : List Port → Nat → String
  | [], _ => ""
  | p :: rest, i =>
    (if i ≠ 0 ∧ i % 10 = 0 ∧ i + 1 ≠ total then "\n" else "") ++
      Port.goString p ++ ", " ++ portsPreviewAux total rest (i + 1)

/-- `(ps Ports) Preview()` (`ports.go` lines 32-53): fewer than 30 ports
render like `String`; otherwise the first 30 render with a trailing
`"..."`. -/
def portsPreview (ps : List Port) : Option String :=
  if ps.length < 30 then
    let ret := portsStringAux ps.length ps 0
    goSliceTo ret ((ret.length : Int) - 2)
  else
    let ret := portsPreviewAux ps.length (ps.take 30) 0
    (goSliceTo ret ((ret.length : Int) - 2)).map (fun s => s ++ "...")

theorem portsStringAux_length_ge (total : Nat) (p : Port) (rest : List Port)
    (i : Nat) : 2 ≤ (portsStringAux total (p :: rest) i).length := by
  have h2 : (", ").length = 2 := rfl
  simp only [portsStringAux, String.length_append, h2]
  omega

theorem portsPreviewAux_length_ge (total : Nat) (p : Port) (rest : List Port)
    (i : Nat) : 2 ≤ (portsPreviewAux total (p :: rest) i).length := by
  have h2 : (", ").length = 2 := rfl
  simp only [portsPreviewAux, String.length_append, h2]
  omega

theorem goSliceTo_drop2_isSome {s : String} (h : 2 ≤ s.length) :
    (goSliceTo s ((s.length : Int) - 2)).isSome = true := by
  have hc : (0 : Int) ≤ (s.length : Int) - 2 ∧
      (s.length : Int) - 2 ≤ (s.length : Int) := by omega
  simp [goSliceTo, hc]

theorem optMap_isSome {α β : Type} (f : α → β) (o : Option α)
    (h : o.isSome = true) : (o.map f).isSome = true := by
  cases o with
  | none => cases h
  | some v => rfl

/-- C10: `Ports.String` and `Ports.Preview` panic on an empty sequence (the
final `ret[:len(ret)-2]` slices with bound `-2`), and terminate normally on
every non-empty sequence. -/
theorem ports_render_empty_panics :
    (portsString [] = none)
    ∧ (portsPreview [] = none)
    ∧ (∀ ps : List Port, ps ≠ [] →
        (portsString ps).isSome = true ∧ (portsPreview ps).isSome = true) := by
  refine ⟨rfl, rfl, ?_⟩
  intro ps hne
  cases ps with
  | nil => cases hne rfl
  | cons p rest =>
    constructor
    · exact goSliceTo_drop2_isSome (portsStringAux_length_ge _ p rest 0)
    · rw [portsPreview]
      by_cases hlen : (p :: rest).length < 30
      · rw [if_pos hlen]
        exact goSliceTo_drop2_isSome (portsStringAux_length_ge _ p rest 0)
      · rw [if_neg hlen]
        have htake : (p :: rest).take 30 = p :: rest.take 29 := rfl
        rw [htake]
        exact optMap_isSome _ _ (goSliceTo_drop2_isSome
          (portsPreviewAux_length_ge (p :: rest).length p (rest.take 29) 0))

/-- Witness for C10 on the one-port sequence `[80/tcp]`. -/
theorem ports_render_empty_panics_witness :
    (portsString [⟨80, "tcp"⟩]).isSome = true
    ∧ (portsPreview [⟨80, "tcp"⟩]).isSome = true :=
  ports_render_empty_panics.2.2 [⟨80, "tcp"⟩] (by simp)

/-- Witness for the amended C3 at a concrete exhaustion message. -/
theorem scanPort_tooMany_retry_witness :
    ((scanPort .Online ⟨8080, "tcp"⟩
        (.failure true "dial tcp 10.0.0.9:8080: socket: too many open files")).events =
      [.acquire 1, .dialAttempt connectTimeoutMillis, .sleepMs connectTimeoutMillis,
       .respawn, .release 1])
    ∧ ((scanPort .Online ⟨8080, "tcp"⟩
        (.failure true "dial tcp 10.0.0.9:8080: socket: too many open files")).sent =
      none) :=
  scanPort_tooMany_retry .Online ⟨8080, "tcp"⟩ _ (by decide)

end Gort
